import Mathlib

/-!
Shallow embedding of the image-generation edge function
(supabase/functions/generate-image/index.ts, four-path extraction variant).

The handler parses `{ prompt, editImageBase64 }` from the request body,
checks the LOVABLE_API_KEY credential and the prompt, builds a chat-style
message payload, performs one upstream call, branches on the HTTP status
(429 / 402 / other non-2xx), and on 2xx extracts an image reference from
the loosely structured provider response by four ordered strategies,
finally answering `{ imageUrl, textContent, success: true }` on success,
the bare `{ error }` bodies on the early 429 and 402 returns, or the
catch-all `{ error, success: false }` envelope with status 500.
-/

/-- A JavaScript value, as far as the `prompt` field is concerned.
The handler checks `!prompt || typeof prompt !== "string"`. -/
inductive JSVal where
  | vUndefined
  | vNull
  | vBool (b : Bool)
  | vNum (n : Int)
  | vStr (s : String)
deriving DecidableEq

/-- JavaScript truthiness of a `JSVal`. -/
def JSVal.truthy : JSVal → Bool
  | .vUndefined => false
  | .vNull => false
  | .vBool b => b
  | .vNum n => n != 0
  | .vStr s => s != ""

/-- `typeof v === "string"`. -/
def JSVal.isString : JSVal → Bool
  | .vStr _ => true
  | _ => false

/-- JavaScript truthiness for an optional string field: `undefined` and the
empty string are falsy; a non-empty string passes through. -/
def truthyStr : Option String → Option String
  | none => none
  | some s => if s = "" then none else some s

/-- One part of a structured (content-list) outbound message:
`{ type: "text", text }` or `{ type: "image_url", image_url: { url } }`. -/
inductive ContentPart where
  | text (t : String)
  | imageUrlPart (url : String)
deriving DecidableEq

/-- Content of an outbound message: a plain string or a part list. -/
inductive MsgContent where
  | plain (s : String)
  | parts (l : List ContentPart)
deriving DecidableEq

/-- An outbound chat message `{ role, content }`. -/
structure Message where
  role : String
  content : MsgContent
deriving DecidableEq

/-- `const messages = editImageBase64 ? [ { role: "user", content: [text, image_url] } ]
: [ { role: "user", content: prompt } ]` — the ternary tests JS truthiness. -/
def buildMessages (prompt : String) (editImageBase64 : Option String) : List Message :=
  match truthyStr editImageBase64 with
  | some img =>
    [{ role := "user",
       content := MsgContent.parts [ContentPart.text prompt, ContentPart.imageUrlPart img] }]
  | none => [{ role := "user", content := MsgContent.plain prompt }]

/-- `{ url }` object nested under `image_url` fields of the provider response. -/
structure UrlObj where
  url : Option String
deriving DecidableEq

/-- One entry of `message.images`. -/
structure ImageItem where
  image_url : Option UrlObj
deriving DecidableEq

/-- One entry of a structured `message.content` array, with the fields the
extraction code inspects: `type`, `image_url.url` and a direct `url`. -/
structure ContentEntry where
  type : String
  image_url : Option UrlObj
  url : Option String
deriving DecidableEq

/-- `message.content` of the provider response: absent, a plain string, or
an array of entries. -/
inductive RContent where
  | undef
  | str (s : String)
  | arr (entries : List ContentEntry)
deriving DecidableEq

/-- `choices[0].message` of the provider response. -/
structure RMessage where
  images : Option (List ImageItem)
  image_url : Option UrlObj
  content : RContent
deriving DecidableEq

/-- One entry of `data.choices`. -/
structure RChoice where
  message : Option RMessage
deriving DecidableEq

/-- The parsed provider response body. -/
structure RData where
  choices : Option (List RChoice)
deriving DecidableEq

/-- `data.choices?.[0]?.message` via optional chaining. -/
def firstMessage (d : RData) : Option RMessage :=
  match d.choices with
  | some (c :: _) => c.message
  | _ => none

/-- `data.choices?.[0]?.message?.content` when it is a plain string
(`typeof content === "string"`). -/
def contentString (d : RData) : Option String :=
  match firstMessage d with
  | some m =>
    match m.content with
    | RContent.str s => some s
    | _ => none
  | none => none

/-- Path 1: `data.choices?.[0]?.message?.images?.[0]?.image_url?.url`,
guarded by JS truthiness of the final value. -/
def path1 (d : RData) : Option String :=
  match firstMessage d with
  | some m =>
    match m.images with
    | some (i :: _) => truthyStr (i.image_url.bind UrlObj.url)
    | _ => none
  | none => none

/-- Path 2: `data.choices?.[0]?.message?.image_url?.url`, truthiness-guarded. -/
def path2 (d : RData) : Option String :=
  match firstMessage d with
  | some m => truthyStr (m.image_url.bind UrlObj.url)
  | none => none

/-- The `find` predicate of path 3: `c.type === "image_url" || c.type === "image"`. -/
def entryIsImage (c : ContentEntry) : Bool :=
  c.type == "image_url" || c.type == "image"

/-- Path 3: when `message.content` is an array, find the first image-tagged
entry and read `imageContent?.image_url?.url`, else `imageContent?.url`,
each under a JS truthiness guard. -/
def path3 (d : RData) : Option String :=
  match firstMessage d with
  | some m =>
    match m.content with
    | RContent.arr entries =>
      match entries.find? entryIsImage with
      | some c =>
        match truthyStr (c.image_url.bind UrlObj.url) with
        | some u => some u
        | none => truthyStr c.url
      | none => none
    | _ => none
  | none => none

/-- The literal `data:image/` of the path-4 regex. -/
def dataImageLit : List Char := "data:image/".toList

/-- The literal `;base64,` of the path-4 regex. -/
def base64Lit : List Char := ";base64,".toList

/-- The character class `[A-Za-z0-9+/=]` of the path-4 regex. -/
def isB64Char (c : Char) : Bool :=
  c.isAlpha || c.isDigit || c == '+' || c == '/' || c == '='

/-- Drop a literal from the front of a character list, if it is there. -/
def dropLit : List Char → List Char → Option (List Char)
  | [], l => some l
  | _ :: _, [] => none
  | p :: ps, c :: cs => if p = c then dropLit ps cs else none

/-- Try the regex `data:image\/[^;]+;base64,[A-Za-z0-9+/=]+` at the start of
`l`, returning the matched characters. `[^;]+` can never cross a `;`, so it
is forced to the run up to the first `;`; `[A-Za-z0-9+/=]+` is greedy. -/
def matchAt (l : List Char) : Option (List Char) :=
  match dropLit dataImageLit l with
  | none => none
  | some r1 =>
    let mid := r1.takeWhile (fun c => c != ';')
    let r2 := r1.dropWhile (fun c => c != ';')
    if mid.isEmpty then none
    else
      match dropLit base64Lit r2 with
      | none => none
      | some r3 =>
        let b64 := r3.takeWhile isB64Char
        if b64.isEmpty then none
        else some (dataImageLit ++ mid ++ base64Lit ++ b64)

/-- `content.match(/data:image\/[^;]+;base64,[A-Za-z0-9+/=]+/)`: the leftmost
position at which the pattern matches, as JS `String.prototype.match` without
the global flag reports match `[0]`. -/
def findBase64Match : List Char → Option (List Char)
  | [] => none
  | c :: rest =>
    match matchAt (c :: rest) with
    | some m => some m
    | none => findBase64Match rest

/-- Path 4 applied to a content string: the base64 data-URI match, if any. -/
def path4str (s : String) : Option String :=
  (findBase64Match s.toList).map String.mk

/-- Path 4: when `message.content` is a plain string, pattern-match it for an
inline base64 image data URI. -/
def path4 (d : RData) : Option String :=
  match contentString d with
  | some s => path4str s
  | none => none

/-- The ordered extraction of `imageUrl`: `let imageUrl = null` then paths
1–4 in order, each later path guarded by `!imageUrl`. Every path only ever
assigns a truthy (non-empty) value, so this is the first-some chain. -/
def extractImageUrl (d : RData) : Option String :=
  match path1 d with
  | some u => some u
  | none =>
    match path2 d with
    | some u => some u
    | none =>
      match path3 d with
      | some u => some u
      | none => path4 d

/-- `const textContent = typeof content === "string" ? content : ""`. -/
def textContentOf (d : RData) : String :=
  match contentString d with
  | some s => s
  | none => ""

/-- The upstream fetch outcome: HTTP status, raw body text (read on the
error branch), and the parsed JSON body (read on the 2xx branch). -/
structure Upstream where
  status : Nat
  bodyText : String
  data : RData
deriving DecidableEq

/-- `response.ok`: status in 200..299. -/
def statusOk (n : Nat) : Bool := 200 ≤ n && n ≤ 299

/-- Body of the handler's own HTTP answer, with the exact field sets the
source serializes: the success JSON `{ imageUrl, textContent, success: true }`;
the bare failure JSON `{ error }` of the early-returned 429 and 402 branches,
which carries no `success` field; and the catch-block envelope
`{ error, success: false }`. -/
inductive RespBody where
  | ok (imageUrl : String) (textContent : String)
  | errOnly (error : String)
  | errFalse (error : String)
deriving DecidableEq

/-- The handler's HTTP answer: status plus JSON body. -/
structure HandlerResponse where
  status : Nat
  body : RespBody
deriving DecidableEq

/-- The observable behaviour of one handler invocation: the HTTP answer,
whether the outbound fetch was executed, and the message payload sent
upstream (present exactly when the fetch ran). -/
structure HandlerTrace where
  response : HandlerResponse
  fetched : Bool
  sentMessages : Option (List Message)
deriving DecidableEq

/-- `throw new Error("LOVABLE_API_KEY is not configured")`. -/
def configErrorMsg : String := "LOVABLE_API_KEY is not configured"

/-- `throw new Error("Prompt is required and must be a string")`. -/
def validationErrorMsg : String := "Prompt is required and must be a string"

/-- The 429 envelope's error string. -/
def rateLimitedMsg : String := "Rate limit exceeded. Please try again later."

/-- The 402 envelope's error string. -/
def paymentRequiredMsg : String := "Payment required. Please add credits to your workspace."

/-- The no-image error message thrown after all four paths fail. -/
def noImageMsg : String := "No image was generated. The AI model might be experiencing issues."

/-- `throw new Error(\x60AI gateway error: ${response.status}\x60)` — the
thrown message interpolates only the status, not the body text. -/
def upstreamErrorMsg (status : Nat) : String := "AI gateway error: " ++ toString status

/-- The serve handler on a POST request with parsed body
`{ prompt, editImageBase64 }`, credential `apiKey` from the environment, and
upstream outcome `up`. Thrown errors land in the catch block, which answers
status 500 with `{ error: message, success: false }`. The prompt guard is
`!prompt || typeof prompt !== "string"`: it passes exactly for a non-empty
string. -/
def handler (prompt : JSVal) (editImageBase64 : Option String)
    (apiKey : Option String) (up : Upstream) : HandlerTrace :=
  match truthyStr apiKey with
  | none => ⟨⟨500, RespBody.errFalse configErrorMsg⟩, false, none⟩
  | some _ =>
    match prompt with
    | JSVal.vStr p =>
      if p = "" then ⟨⟨500, RespBody.errFalse validationErrorMsg⟩, false, none⟩
      else
        let messages := buildMessages p editImageBase64
        if statusOk up.status then
          match extractImageUrl up.data with
          | some u => ⟨⟨200, RespBody.ok u (textContentOf up.data)⟩, true, some messages⟩
          | none => ⟨⟨500, RespBody.errFalse noImageMsg⟩, true, some messages⟩
        else
          if up.status = 429 then
            ⟨⟨429, RespBody.errOnly rateLimitedMsg⟩, true, some messages⟩
          else if up.status = 402 then
            ⟨⟨402, RespBody.errOnly paymentRequiredMsg⟩, true, some messages⟩
          else ⟨⟨500, RespBody.errFalse (upstreamErrorMsg up.status)⟩, true, some messages⟩
    | _ => ⟨⟨500, RespBody.errFalse validationErrorMsg⟩, false, none⟩

/-- A provider body with no `choices` field. -/
def noChoices : RData := ⟨none⟩

/-- Does a character sequence start with the given needle? -/
def leadSeg : List Char → List Char → Bool
  | [], _ => true
  | _ :: _, [] => false
  | a :: as, b :: bs => a == b && leadSeg as bs

/-- Does a character sequence contain the needle as a contiguous segment? -/
def containsSeg (n : List Char) : List Char → Bool
  | [] => n.isEmpty
  | c :: rest => leadSeg n (c :: rest) || containsSeg n rest

theorem dropLit_eq_append (pat : List Char) :
    ∀ l r, dropLit pat l = some r → l = pat ++ r := by
  induction pat with
  | nil =>
    intro l r h
    simp [dropLit] at h
    simp [h]
  | cons p ps ih =>
    intro l r h
    cases l with
    | nil => simp [dropLit] at h
    | cons c cs =>
      simp only [dropLit] at h
      split at h
      · rename_i hpc
        have hr := ih cs r h
        simp [hpc, hr]
      · exact absurd h (by simp)

theorem matchAt_sound : ∀ l m, matchAt l = some m → ∃ t, l = m ++ t := by
  intro l m h
  unfold matchAt at h
  cases h1 : dropLit dataImageLit l <;> rw [h1] at h
  · exact absurd h (by simp)
  case some r1 =>
    simp only at h
    by_cases hmid : (r1.takeWhile fun c => c != ';').isEmpty
    · rw [if_pos hmid] at h
      exact absurd h (by simp)
    · rw [if_neg hmid] at h
      cases h2 : dropLit base64Lit (r1.dropWhile fun c => c != ';') <;> rw [h2] at h
      · exact absurd h (by simp)
      · rename_i r3
        simp only at h
        by_cases hb : (r3.takeWhile isB64Char).isEmpty
        · rw [if_pos hb] at h
          exact absurd h (by simp)
        · rw [if_neg hb] at h
          have hm := Option.some.inj h
          refine ⟨r3.dropWhile isB64Char, ?_⟩
          have e1 := dropLit_eq_append dataImageLit l r1 h1
          have e3 := dropLit_eq_append base64Lit _ r3 h2
          calc l = dataImageLit ++ r1 := e1
            _ = dataImageLit ++ ((r1.takeWhile fun c => c != ';')
                  ++ (r1.dropWhile fun c => c != ';')) := by
                rw [List.takeWhile_append_dropWhile]
            _ = dataImageLit ++ ((r1.takeWhile fun c => c != ';')
                  ++ (base64Lit ++ r3)) := by rw [← e3]
            _ = dataImageLit ++ ((r1.takeWhile fun c => c != ';')
                  ++ (base64Lit ++ (r3.takeWhile isB64Char ++ r3.dropWhile isB64Char))) := by
                rw [List.takeWhile_append_dropWhile]
            _ = m ++ r3.dropWhile isB64Char := by rw [← hm]; simp

theorem leadSeg_append (m t : List Char) : leadSeg m (m ++ t) = true := by
  induction m with
  | nil => rfl
  | cons a as ih => simp [leadSeg, ih]

theorem containsSeg_head (n l : List Char) (h : ∃ t, l = n ++ t) :
    containsSeg n l = true := by
  obtain ⟨t, rfl⟩ := h
  cases n with
  | nil => cases t <;> simp [containsSeg, leadSeg]
  | cons a as =>
    have h1 : leadSeg (a :: as) ((a :: as) ++ t) = true := leadSeg_append _ _
    show (leadSeg (a :: as) ((a :: as) ++ t) || containsSeg (a :: as) (as ++ t)) = true
    rw [h1]
    simp

theorem containsSeg_tail (n : List Char) (c : Char) (rest : List Char)
    (h : containsSeg n rest = true) : containsSeg n (c :: rest) = true := by
  simp [containsSeg, h]

theorem findBase64Match_contains :
    ∀ l m, findBase64Match l = some m → containsSeg m l = true := by
  intro l
  induction l with
  | nil => intro m h; simp [findBase64Match] at h
  | cons c rest ih =>
    intro m h
    unfold findBase64Match at h
    cases hm : matchAt (c :: rest) <;> rw [hm] at h
    · exact containsSeg_tail _ _ _ (ih m h)
    · rename_i v
      simp only at h
      have hv := Option.some.inj h
      subst hv
      exact containsSeg_head _ _ (matchAt_sound _ _ hm)

theorem sentMessages_eq (p k : String) (img : Option String) (up : Upstream)
    (hp : p ≠ "") (hk : k ≠ "") :
    (handler (JSVal.vStr p) img (some k) up).sentMessages = some (buildMessages p img) := by
  simp only [handler, truthyStr, hk, if_false]
  by_cases hok : statusOk up.status
  · simp only [hp, if_neg, hok, if_true, reduceIte]
    cases hx : extractImageUrl up.data <;> simp [hx]
  · simp only [hp, reduceIte, hok]
    by_cases h4 : up.status = 429 <;> simp only [h4, reduceIte]
    · simp
    · by_cases h2 : up.status = 402 <;> simp [h2]

theorem handler_ok_of_extract (p k u : String) (img : Option String) (up : Upstream)
    (hp : p ≠ "") (hk : k ≠ "") (hok : statusOk up.status = true)
    (hx : extractImageUrl up.data = some u) :
    (handler (JSVal.vStr p) img (some k) up).response
      = ⟨200, RespBody.ok u (textContentOf up.data)⟩ := by
  simp [handler, truthyStr, hk, hp, hok, hx]

theorem extract_of_path4 (d : RData) (s b : String)
    (h1 : path1 d = none) (h2 : path2 d = none) (h3 : path3 d = none)
    (hs : contentString d = some s) (hb : path4str s = some b) :
    extractImageUrl d = some b := by
  simp [extractImageUrl, h1, h2, h3, path4, hs, hb]

theorem handler_ok_path4 (p k s b : String) (img : Option String) (up : Upstream)
    (hp : p ≠ "") (hk : k ≠ "") (hok : statusOk up.status = true)
    (h1 : path1 up.data = none) (h2 : path2 up.data = none) (h3 : path3 up.data = none)
    (hs : contentString up.data = some s) (hb : path4str s = some b) :
    (handler (JSVal.vStr p) img (some k) up).response = ⟨200, RespBody.ok b s⟩ := by
  have hx := extract_of_path4 up.data s b h1 h2 h3 hs hb
  have ht : textContentOf up.data = s := by simp [textContentOf, hs]
  rw [handler_ok_of_extract p k b img up hp hk hok hx, ht]

/-- Concrete 2xx body carrying both a populated `images` list and a base64
data URI inside a string `content` field. -/
def c1data : RData :=
  ⟨some [⟨some ⟨some [⟨some ⟨some "https://x/img.png"⟩⟩], none,
    RContent.str "pic data:image/png;base64,QQ== end"⟩⟩]⟩

/-- C1: on a 2xx response the four extraction strategies run in fixed order
and the first non-empty reference wins; in particular, when the images-list
field of the first choice's message is populated and the string content also
holds a base64 data URI, the handler answers with the images-list value. -/
theorem c1_image_list_precedes_base64 (p k u s b : String) (img : Option String)
    (up : Upstream) (hp : p ≠ "") (hk : k ≠ "") (hok : statusOk up.status = true)
    (h1 : path1 up.data = some u) (hs : contentString up.data = some s)
    (hb : path4str s = some b) :
    extractImageUrl up.data = some u ∧
    (handler (JSVal.vStr p) img (some k) up).response
      = ⟨200, RespBody.ok u (textContentOf up.data)⟩ := by
  have hx : extractImageUrl up.data = some u := by simp [extractImageUrl, h1]
  exact ⟨hx, handler_ok_of_extract p k u img up hp hk hok hx⟩

/-- C1 witness: the precedence theorem at a concrete response that has both
an images-list URL and a base64 match in the string content. -/
theorem c1_image_list_precedes_base64_witness :
    extractImageUrl c1data = some "https://x/img.png" ∧
    (handler (JSVal.vStr "a red circle") none (some "key") ⟨200, "", c1data⟩).response
      = ⟨200, RespBody.ok "https://x/img.png" "pic data:image/png;base64,QQ== end"⟩ :=
  c1_image_list_precedes_base64 "a red circle" "key" "https://x/img.png"
    "pic data:image/png;base64,QQ== end" "data:image/png;base64,QQ==" none
    ⟨200, "", c1data⟩ (by decide) (by decide) (by decide) (by decide) (by decide)
    (by decide)

/-- Concrete 2xx body whose only image reference is a base64 data URI inside
the string content field. -/
def c3data : RData :=
  ⟨some [⟨some ⟨none, none, RContent.str "see data:image/png;base64,QQ== ok"⟩⟩]⟩

/-- C3: when strategies 1–3 find nothing and the string content holds a
base64 image data URI, the handler succeeds and returns the matched data URI
as `imageUrl`. -/
theorem c3_base64_fallback (p k s b : String) (img : Option String) (up : Upstream)
    (hp : p ≠ "") (hk : k ≠ "") (hok : statusOk up.status = true)
    (h1 : path1 up.data = none) (h2 : path2 up.data = none) (h3 : path3 up.data = none)
    (hs : contentString up.data = some s) (hb : path4str s = some b) :
    (handler (JSVal.vStr p) img (some k) up).response = ⟨200, RespBody.ok b s⟩ :=
  handler_ok_path4 p k s b img up hp hk hok h1 h2 h3 hs hb

/-- C3 witness: the fallback theorem at a concrete response whose content
string embeds `data:image/png;base64,QQ==`. -/
theorem c3_base64_fallback_witness :
    (handler (JSVal.vStr "a red circle") none (some "key") ⟨200, "", c3data⟩).response
      = ⟨200, RespBody.ok "data:image/png;base64,QQ==" "see data:image/png;base64,QQ== ok"⟩ :=
  c3_base64_fallback "a red circle" "key" "see data:image/png;base64,QQ== ok"
    "data:image/png;base64,QQ==" none ⟨200, "", c3data⟩ (by decide) (by decide)
    (by decide) (by decide) (by decide) (by decide) (by decide) (by decide)

/-- C4: on a 2xx response from which no strategy extracts a reference, the
handler answers the no-image error envelope (status 500, `success: false`),
not a success body. -/
theorem c4_no_image_error (p k : String) (img : Option String) (up : Upstream)
    (hp : p ≠ "") (hk : k ≠ "") (hok : statusOk up.status = true)
    (hnone : extractImageUrl up.data = none) :
    (handler (JSVal.vStr p) img (some k) up).response = ⟨500, RespBody.errFalse noImageMsg⟩ := by
  simp [handler, truthyStr, hk, hp, hok, hnone]

/-- C4 witness: the no-image theorem at a concrete empty provider body. -/
theorem c4_no_image_error_witness :
    (handler (JSVal.vStr "a red circle") none (some "key") ⟨200, "", noChoices⟩).response
      = ⟨500, RespBody.errFalse noImageMsg⟩ :=
  c4_no_image_error "a red circle" "key" none ⟨200, "", noChoices⟩ (by decide)
    (by decide) (by decide) (by decide)

/-- C7: when the prompt is missing or not a string, the handler answers the
validation error envelope and never performs the outbound fetch. -/
theorem c7_validation_before_fetch (prompt : JSVal) (img : Option String) (k : String)
    (up : Upstream) (hk : k ≠ "") (hp : prompt.isString = false) :
    handler prompt img (some k) up
      = ⟨⟨500, RespBody.errFalse validationErrorMsg⟩, false, none⟩ := by
  cases prompt <;> simp_all [handler, truthyStr, JSVal.isString]

/-- C7 witness: the validation theorem at a null prompt. -/
theorem c7_validation_before_fetch_witness :
    handler JSVal.vNull none (some "key") ⟨200, "", noChoices⟩
      = ⟨⟨500, RespBody.errFalse validationErrorMsg⟩, false, none⟩ :=
  c7_validation_before_fetch JSVal.vNull none "key" ⟨200, "", noChoices⟩
    (by decide) (by decide)

/-- C9: an empty-string prompt is falsy, so it takes the same validation
branch as a missing prompt: the same error envelope, no fetch, and the whole
trace coincides with the missing-prompt trace. -/
theorem c9_empty_prompt_rejected (img : Option String) (k : String) (up : Upstream)
    (hk : k ≠ "") :
    handler (JSVal.vStr "") img (some k) up
      = ⟨⟨500, RespBody.errFalse validationErrorMsg⟩, false, none⟩ ∧
    handler (JSVal.vStr "") img (some k) up = handler JSVal.vUndefined img (some k) up := by
  constructor <;> simp [handler, truthyStr, hk]

/-- C9 witness: the empty-prompt theorem at concrete arguments. -/
theorem c9_empty_prompt_rejected_witness :
    handler (JSVal.vStr "") none (some "key") ⟨200, "", noChoices⟩
      = ⟨⟨500, RespBody.errFalse validationErrorMsg⟩, false, none⟩ ∧
    handler (JSVal.vStr "") none (some "key") ⟨200, "", noChoices⟩
      = handler JSVal.vUndefined none (some "key") ⟨200, "", noChoices⟩ :=
  c9_empty_prompt_rejected none "key" ⟨200, "", noChoices⟩ (by decide)

/-- Does a message list have the edit shape the claim describes: a single
user message whose content is exactly one text entry then one image entry? -/
def isEditPayloadShape : List Message → Bool
  | [Message.mk "user" (MsgContent.parts [ContentPart.text _, ContentPart.imageUrlPart _])] =>
    true
  | _ => false

/-- C2 counterexample: an `editImageBase64` that is present but empty is
falsy, so the ternary builds the plain-string payload, not the content-list
payload the claim promises for every present `editImageBase64`. -/
theorem c2_counterexample :
    (handler (JSVal.vStr "a cat") (some "") (some "key") ⟨200, "", noChoices⟩).sentMessages
      = some [Message.mk "user" (MsgContent.plain "a cat")] ∧
    isEditPayloadShape [Message.mk "user" (MsgContent.plain "a cat")] = false := by
  decide

/-- C2 (amended): with no `editImageBase64` the payload sent upstream is one
user message whose content is the plain prompt string; with a non-empty
`editImageBase64` (the ternary treats the empty string as absent) it is one
user message whose content is exactly a text entry then an image entry. -/
theorem c2_payload_shapes (p k : String) (up : Upstream) (hp : p ≠ "") (hk : k ≠ "") :
    (handler (JSVal.vStr p) none (some k) up).sentMessages
      = some [Message.mk "user" (MsgContent.plain p)] ∧
    (∀ i, i ≠ "" → (handler (JSVal.vStr p) (some i) (some k) up).sentMessages
      = some [Message.mk "user"
          (MsgContent.parts [ContentPart.text p, ContentPart.imageUrlPart i])]) := by
  constructor
  · rw [sentMessages_eq p k none up hp hk]
    simp [buildMessages, truthyStr]
  · intro i hi
    rw [sentMessages_eq p k (some i) up hp hk]
    simp [buildMessages, truthyStr, hi]

/-- C2 witness: the amended payload-shape theorem at concrete prompts, with
and without an edit image. -/
theorem c2_payload_shapes_witness :
    (handler (JSVal.vStr "a cat") none (some "key") ⟨200, "", noChoices⟩).sentMessages
      = some [Message.mk "user" (MsgContent.plain "a cat")] ∧
    (handler (JSVal.vStr "a cat") (some "data:image/png;base64,QQ") (some "key")
        ⟨200, "", noChoices⟩).sentMessages
      = some [Message.mk "user" (MsgContent.parts
          [ContentPart.text "a cat", ContentPart.imageUrlPart "data:image/png;base64,QQ"])] :=
  have h := c2_payload_shapes "a cat" "key" ⟨200, "", noChoices⟩ (by decide) (by decide)
  ⟨h.1, h.2 "data:image/png;base64,QQ" (by decide)⟩

/-- C5 counterexample: for upstream status 503 with body `boom`, the failure
envelope is `AI gateway error: 503` — it carries the status code but the
upstream response body appears nowhere in it (the code only logs the body). -/
theorem c5_counterexample :
    (handler (JSVal.vStr "p") none (some "k") ⟨503, "boom", noChoices⟩).response
      = ⟨500, RespBody.errFalse "AI gateway error: 503"⟩ ∧
    containsSeg "boom".toList "AI gateway error: 503".toList = false := by
  decide

/-- C5 (amended): 429 maps to the rate-limited envelope with status 429, 402
to the payment-required envelope with status 402, and any other non-2xx
status to a 500 envelope whose message interpolates the upstream status code;
the upstream response body is only logged, not carried in the envelope. -/
theorem c5_status_mapping (p k : String) (img : Option String) (up : Upstream)
    (hp : p ≠ "") (hk : k ≠ "") (hnok : statusOk up.status = false) :
    (up.status = 429 →
      (handler (JSVal.vStr p) img (some k) up).response
        = ⟨429, RespBody.errOnly rateLimitedMsg⟩) ∧
    (up.status = 402 →
      (handler (JSVal.vStr p) img (some k) up).response
        = ⟨402, RespBody.errOnly paymentRequiredMsg⟩) ∧
    (up.status ≠ 429 → up.status ≠ 402 →
      (handler (JSVal.vStr p) img (some k) up).response
        = ⟨500, RespBody.errFalse (upstreamErrorMsg up.status)⟩) := by
  refine ⟨?_, ?_, ?_⟩
  · intro h4
    rw [h4] at hnok
    simp [handler, truthyStr, hk, hp, hnok, h4]
  · intro h2
    rw [h2] at hnok
    have h4 : up.status ≠ 429 := by simp [h2]
    simp [handler, truthyStr, hk, hp, hnok, h2, h4]
  · intro h4 h2
    simp [handler, truthyStr, hk, hp, hnok, h4, h2]

/-- C5 witness: the status-mapping theorem at the three concrete statuses
429, 402 and 503. -/
theorem c5_status_mapping_witness :
    (handler (JSVal.vStr "p") none (some "k") ⟨429, "", noChoices⟩).response
      = ⟨429, RespBody.errOnly rateLimitedMsg⟩ ∧
    (handler (JSVal.vStr "p") none (some "k") ⟨402, "", noChoices⟩).response
      = ⟨402, RespBody.errOnly paymentRequiredMsg⟩ ∧
    (handler (JSVal.vStr "p") none (some "k") ⟨503, "x", noChoices⟩).response
      = ⟨500, RespBody.errFalse (upstreamErrorMsg 503)⟩ :=
  ⟨(c5_status_mapping "p" "k" none ⟨429, "", noChoices⟩ (by decide) (by decide)
      (by decide)).1 (by decide),
   (c5_status_mapping "p" "k" none ⟨402, "", noChoices⟩ (by decide) (by decide)
      (by decide)).2.1 (by decide),
   (c5_status_mapping "p" "k" none ⟨503, "x", noChoices⟩ (by decide) (by decide)
      (by decide)).2.2 (by decide) (by decide)⟩

/-- Is the body one of the two failure shapes (not the success JSON)? -/
def isFailureBody : RespBody → Bool
  | RespBody.ok _ _ => false
  | RespBody.errOnly _ => true
  | RespBody.errFalse _ => true

/-- Does the body carry an explicit `success: false` field? In the source
only the catch-block envelope does; the 429 and 402 bodies are `{ error }`
alone. -/
def hasSuccessFalse : RespBody → Bool
  | RespBody.errFalse _ => true
  | _ => false

/-- C6 counterexample: for upstream status 429 the handler answers with the
early-returned bare `{ error }` body — a failure response that carries no
`success: false` field, refuting the claim that every failure response has
shape `{ error, success: false }` (and its 'in particular' for 429). -/
theorem c6_counterexample :
    (handler (JSVal.vStr "p") none (some "k") ⟨429, "", noChoices⟩).response
      = ⟨429, RespBody.errOnly rateLimitedMsg⟩ ∧
    isFailureBody (RespBody.errOnly rateLimitedMsg) = true ∧
    hasSuccessFalse (RespBody.errOnly rateLimitedMsg) = false := by
  decide

/-- Each failure shape travels only with the status its branch sets: the
bare `{ error }` body only with 429 or 402, the `{ error, success: false }`
catch envelope only with 500. -/
def failureShapeOk (r : HandlerResponse) : Bool :=
  match r.body with
  | RespBody.ok _ _ => true
  | RespBody.errOnly _ => r.status == 429 || r.status == 402
  | RespBody.errFalse _ => r.status == 500

/-- A 429 or 402 answer carries the bare `{ error }` failure body. -/
def limitStatusIsBareErr (r : HandlerResponse) : Bool :=
  if r.status == 429 || r.status == 402 then
    match r.body with
    | RespBody.errOnly _ => true
    | _ => false
  else true

/-- C6 (amended): every failure answer of the handler carries an error string
and status 429, 402 or 500 (validation, configuration, no-image and other
upstream failures all land on 500), but only the 500 catch envelope has shape
`{ error, success: false }`: the 429 and 402 failure answers are the bare
`{ error }` bodies with no `success` field. -/
theorem c6_failure_envelope_shapes (prompt : JSVal) (img apiKey : Option String)
    (up : Upstream) :
    failureShapeOk (handler prompt img apiKey up).response = true ∧
    limitStatusIsBareErr (handler prompt img apiKey up).response = true := by
  constructor <;>
    (unfold handler
     cases truthyStr apiKey <;> try rfl
     cases prompt <;> try rfl
     rename_i p
     by_cases hp : p = "" <;> simp only [hp, reduceIte]
     · rfl
     · by_cases hok : statusOk up.status <;> simp only [hok, reduceIte, Bool.false_eq_true]
       · cases extractImageUrl up.data <;> rfl
       · by_cases h4 : up.status = 429 <;> simp only [h4, reduceIte]
         · rfl
         · by_cases h2 : up.status = 402 <;> simp only [h2, reduceIte] <;> rfl)

/-- Concrete 2xx body with both a populated images list and a plain string
content. -/
def c8data : RData :=
  ⟨some [⟨some ⟨some [⟨some ⟨some "https://x/a.png"⟩⟩], none,
    RContent.str "here you go"⟩⟩]⟩

/-- C8 counterexample: the image is found by the image-list strategy, yet
`textContent` is the message's plain string content, not the empty string the
claim requires for the image-list branch. -/
theorem c8_counterexample :
    path1 c8data = some "https://x/a.png" ∧
    (handler (JSVal.vStr "p") none (some "k") ⟨200, "", c8data⟩).response
      = ⟨200, RespBody.ok "https://x/a.png" "here you go"⟩ ∧
    ("here you go" : String) ≠ "" := by
  decide

/-- C8 (amended): on success `textContent` is computed from the content field
alone — it equals the content when that is a plain string and is empty when
the content is not a plain string — independently of which extraction branch
produced the image. -/
theorem c8_text_content_from_content_field (p k u : String) (img : Option String)
    (up : Upstream) (hp : p ≠ "") (hk : k ≠ "") (hok : statusOk up.status = true)
    (hu : extractImageUrl up.data = some u) :
    (handler (JSVal.vStr p) img (some k) up).response
      = ⟨200, RespBody.ok u (textContentOf up.data)⟩ ∧
    (∀ s, contentString up.data = some s → textContentOf up.data = s) ∧
    (contentString up.data = none → textContentOf up.data = "") := by
  refine ⟨handler_ok_of_extract p k u img up hp hk hok hu, ?_, ?_⟩
  · intro s hs
    simp [textContentOf, hs]
  · intro hs
    simp [textContentOf, hs]

/-- C8 witness: the amended theorem at a response carrying both an image list
and string content. -/
theorem c8_text_content_from_content_field_witness :
    (handler (JSVal.vStr "p") none (some "k") ⟨200, "", c8data⟩).response
      = ⟨200, RespBody.ok "https://x/a.png" (textContentOf c8data)⟩ ∧
    textContentOf c8data = "here you go" :=
  have h := c8_text_content_from_content_field "p" "k" "https://x/a.png" none
    ⟨200, "", c8data⟩ (by decide) (by decide) (by decide) (by decide)
  ⟨h.1, h.2.1 "here you go" (by decide)⟩

/-- Concrete 2xx body whose only image is a base64 data URI inside the string
content. -/
def c10data : RData :=
  ⟨some [⟨some ⟨none, none, RContent.str "img: data:image/jpeg;base64,Zm9v !"⟩⟩]⟩

/-- C10: when the image is found only by the base64 strategy, the success
body carries the whole content string as `textContent` and the returned
`imageUrl` occurs inside it as a contiguous substring — the image data is
duplicated across both fields. -/
theorem c10_base64_duplicated_in_text (p k s b : String) (img : Option String)
    (up : Upstream) (hp : p ≠ "") (hk : k ≠ "") (hok : statusOk up.status = true)
    (h1 : path1 up.data = none) (h2 : path2 up.data = none) (h3 : path3 up.data = none)
    (hs : contentString up.data = some s) (hb : path4str s = some b) :
    (handler (JSVal.vStr p) img (some k) up).response = ⟨200, RespBody.ok b s⟩ ∧
    containsSeg b.toList s.toList = true := by
  refine ⟨handler_ok_path4 p k s b img up hp hk hok h1 h2 h3 hs hb, ?_⟩
  unfold path4str at hb
  cases hf : findBase64Match s.toList <;> rw [hf] at hb
  · exact absurd hb (by simp)
  · rename_i l
    have hbl : b = String.mk l := by
      have hq := Option.some.inj hb.symm
      simp at hq
      exact hq
    subst hbl
    exact findBase64Match_contains s.toList l hf

/-- C10 witness: the duplication theorem at a concrete content string
embedding `data:image/jpeg;base64,Zm9v`. -/
theorem c10_base64_duplicated_in_text_witness :
    (handler (JSVal.vStr "p") none (some "k") ⟨200, "", c10data⟩).response
      = ⟨200, RespBody.ok "data:image/jpeg;base64,Zm9v" "img: data:image/jpeg;base64,Zm9v !"⟩ ∧
    containsSeg ("data:image/jpeg;base64,Zm9v" : String).toList
      ("img: data:image/jpeg;base64,Zm9v !" : String).toList = true :=
  c10_base64_duplicated_in_text "p" "k" "img: data:image/jpeg;base64,Zm9v !"
    "data:image/jpeg;base64,Zm9v" none ⟨200, "", c10data⟩ (by decide) (by decide)
    (by decide) (by decide) (by decide) (by decide) (by decide) (by decide)
